import Mathlib

/-!
Verification of the bestbuy store program (products.py, promotions.py,
store.py) against its specification.

The embedding is shallow: Python floats are modelled as rationals,
Python ints as `Int`, raised `ValueError`/`AttributeError` exceptions as
an explicit error type returned through `Except`.  Mutation of product
objects is modelled by returning the post-state; `Store.order`, which
mutates the product objects referenced by the shopping list, is modelled
over an explicit heap (a list of products indexed by `Nat` references).
Each definition mirrors one function or method of the source, named
after it, with the source location recorded in its doc comment.
-/

namespace BestBuy

/-- Error kinds, one constructor per distinct raise site in the source.
The source raises `ValueError` with a message string at every site
except the attribute-lookup failure, which Python signals as
`AttributeError`; the constructors carry the data interpolated into the
source's message. -/
inductive Err where
  /-- products.py 28: "Product name can not be empty." -/
  | emptyName
  /-- products.py 30: "Price should be a positive number." -/
  | priceNotPositive
  /-- products.py 32: "Quantity should be a positive number." -/
  | quantityNotPositive
  /-- products.py 118 (quantity setter): "Quantity should be a whole positive number." -/
  | quantityNotWholePositive
  /-- products.py 172 and 331: "Product Inactive" -/
  | productInactive
  /-- products.py 174, 257, 333: "Quantity to buy must be a number greater than zero." -/
  | buyQuantityNotPositive
  /-- products.py 176 and 337: "Quantity requested for {name} is larger than what exists." -/
  | insufficientStock (name : String)
  /-- products.py 335: "Only {maximum} is allowed from [{name}]!" -/
  | maximumExceeded (maximum : Int) (name : String)
  /-- products.py 240: "Cannot set quantity for a non-stocked product." -/
  | cannotSetNonStockedQuantity
  /-- store.py 101: "There is no {name} in the store." -/
  | productNotInStore (name : String)
  /-- Python AttributeError raised when an attribute lookup fails. -/
  | attributeError (attr : String)
  deriving DecidableEq, Repr

/-- Equality of modelled results is decidable, so concrete runs of the
embedded code can be checked by evaluation. -/
instance {ε α : Type} [DecidableEq ε] [DecidableEq α] : DecidableEq (Except ε α) := fun x y =>
  match x, y with
  | .ok a, .ok b =>
      if h : a = b then isTrue (by rw [h]) else isFalse (by intro hc; cases hc; exact h rfl)
  | .error a, .error b =>
      if h : a = b then isTrue (by rw [h]) else isFalse (by intro hc; cases hc; exact h rfl)
  | .ok _, .error _ => isFalse (by intro hc; cases hc)
  | .error _, .ok _ => isFalse (by intro hc; cases hc)

/-- The three promotion strategies of promotions.py, as a closed sum:
`SecondHalfPrice`, `ThirdOneFree`, `PercentDiscount` (which additionally
stores `_percent`).  Every variant stores the `_name` set by
`Promotion.__init__`. -/
inductive Promotion where
  | secondHalfPrice (name : String)
  | thirdOneFree (name : String)
  | percentDiscount (name : String) (percent : Rat)
  deriving DecidableEq, Repr

/-- `Promotion.name` property (promotions.py 30-32). -/
def Promotion.name : Promotion → String
  | .secondHalfPrice n => n
  | .thirdOneFree n => n
  | .percentDiscount n _ => n

/-- `Promotion.__init__` (promotions.py 12-19): stores the name; the body
performs no validation, so construction always succeeds. -/
def Promotion.init (name : String) : Except Err String :=
  .ok name

/-- `SecondHalfPrice(name)` construction: inherits `Promotion.__init__`. -/
def SecondHalfPrice.init (name : String) : Except Err Promotion :=
  (Promotion.init name).map Promotion.secondHalfPrice

/-- `ThirdOneFree(name)` construction: inherits `Promotion.__init__`. -/
def ThirdOneFree.init (name : String) : Except Err Promotion :=
  (Promotion.init name).map Promotion.thirdOneFree

/-- `PercentDiscount.__init__` (promotions.py 108-117): calls
`Promotion.__init__` and stores `_percent`; the body performs no
validation of the percent, so construction always succeeds. -/
def PercentDiscount.init (name : String) (percent : Rat) : Except Err Promotion :=
  (Promotion.init name).map (fun n => Promotion.percentDiscount n percent)

/-- `apply_promotion`, dispatched on the strategy (promotions.py 56-72,
82-98, 119-132).  The source methods receive the product and read only
`product.price`, so the embedding takes the price directly.  Python `//`
and `%` on ints are floor division and (for a positive divisor)
nonnegative remainder: `Int.fdiv` and `Int.emod`. -/
def Promotion.apply (pr : Promotion) (price : Rat) (quantity : Int) : Rat :=
  match pr with
  | .secondHalfPrice _ =>
      if quantity ≥ 2 then
        price * ((Int.fdiv quantity 2 : Int) * (3 / 2 : Rat) + ((Int.emod quantity 2 : Int) : Rat))
      else price * quantity
  | .thirdOneFree _ =>
      if quantity ≥ 3 then price * ((quantity - Int.fdiv quantity 3 : Int) : Rat)
      else price * quantity
  | .percentDiscount _ percent => price * (100 - percent) / 100

/-- The three product classes of products.py as a closed variant tag:
`Product` itself (standard), `NonStockedProduct`, and `LimitedProduct`
with its extra `_maximum` field (products.py 279-290). -/
inductive Variant where
  | standard
  | nonStocked
  | limited (maximum : Int)
  deriving DecidableEq, Repr

/-- The state of one product object: the fields `_name`, `_price`,
`_quantity`, `_active`, `_promotion` set by `Product.__init__`
(products.py 33-37), plus the class tag. -/
structure Product where
  name : String
  price : Rat
  quantity : Int
  active : Bool
  promotion : Option Promotion
  variant : Variant
  deriving DecidableEq, Repr

/-- The `quantity` property getter: `Product.quantity` returns
`_quantity` (products.py 96-104); `NonStockedProduct` overrides it to
always return 0 (products.py 221-229). -/
def Product.getQuantity (p : Product) : Int :=
  match p.variant with
  | .nonStocked => 0
  | _ => p.quantity

/-- The `quantity` property setter (products.py 106-121): rejects a
negative value, stores the new quantity, and sets `active` to false when
the stored quantity is 0.  `NonStockedProduct` overrides it to always
raise (products.py 231-240).  The isinstance int check of the source is
discharged by the `Int` type of the argument. -/
def Product.setQuantity (p : Product) (n : Int) : Except Err Product :=
  match p.variant with
  | .nonStocked => .error .cannotSetNonStockedQuantity
  | _ =>
      if n < 0 then .error .quantityNotWholePositive
      else
        let p1 : Product := { p with quantity := n }
        if n = 0 then .ok { p1 with active := false } else .ok p1

/-- `Product.__init__` (products.py 15-37): empty name, negative price or
negative quantity are rejected; otherwise the product starts with
`_active = True` and `_promotion = None`.  Price and quantity arrive as
numbers in the embedding, so the source's isinstance checks reduce to
the sign checks. -/
def Product.init (name : String) (price : Rat) (quantity : Int) : Except Err Product :=
  if name = "" then .error .emptyName
  else if price < 0 then .error .priceNotPositive
  else if quantity < 0 then .error .quantityNotPositive
  else .ok { name := name, price := price, quantity := quantity,
             active := true, promotion := none, variant := .standard }

/-- `NonStockedProduct.__init__` (products.py 200-209): calls the base
constructor with quantity 0. -/
def NonStockedProduct.init (name : String) (price : Rat) : Except Err Product :=
  (Product.init name price 0).map (fun p => { p with variant := Variant.nonStocked })

/-- `LimitedProduct.__init__` (products.py 279-290): calls the base
constructor, then stores `_maximum` (which it does not validate). -/
def LimitedProduct.init (name : String) (price : Rat) (quantity maximum : Int) :
    Except Err Product :=
  (Product.init name price quantity).map (fun p => { p with variant := Variant.limited maximum })

/-- The charge computed at the end of every successful `buy`
(products.py 181-184, 260-262, 342-345): `promotion.apply_promotion(self,
quantity)` when a promotion is attached (`None` is falsy), else
`self._price * quantity`. -/
def Product.charge (p : Product) (quantity : Int) : Rat :=
  match p.promotion with
  | some pr => pr.apply p.price quantity
  | none => p.price * quantity

/-- `buy`, dispatched on the class as Python method resolution does:
`Product.buy` (products.py 157-184), `NonStockedProduct.buy` (242-262)
— which performs no `active` check — and `LimitedProduct.buy` (316-345)
— which checks the per-order maximum before the stock.  The result pairs
the raised error or returned charge with the post-state of the product;
every raise in the source happens before the quantity assignment, so on
error the post-state is the unchanged receiver. -/
def Product.buy (p : Product) (quantity : Int) : Except Err Rat × Product :=
  match p.variant with
  | .nonStocked =>
      if quantity ≤ 0 then (.error .buyQuantityNotPositive, p)
      else (.ok (p.charge quantity), p)
  | .standard =>
      if p.active = false then (.error .productInactive, p)
      else if quantity ≤ 0 then (.error .buyQuantityNotPositive, p)
      else if p.getQuantity < quantity then (.error (.insufficientStock p.name), p)
      else
        match p.setQuantity (p.getQuantity - quantity) with
        | .ok p2 => (.ok (p2.charge quantity), p2)
        | .error e => (.error e, p)
  | .limited maximum =>
      if p.active = false then (.error .productInactive, p)
      else if quantity ≤ 0 then (.error .buyQuantityNotPositive, p)
      else if quantity > maximum then (.error (.maximumExceeded maximum p.name), p)
      else if p.getQuantity < quantity then (.error (.insufficientStock p.name), p)
      else
        match p.setQuantity (p.getQuantity - quantity) with
        | .ok p2 => (.ok (p2.charge quantity), p2)
        | .error e => (.error e, p)

/-- `Product.__eq__` (products.py 52-64): equality holds iff name and
price both match. -/
def Product.pyEq (a b : Product) : Bool :=
  a.name == b.name && a.price == b.price

/-- Python variables hold references to objects; mutation through one
reference is visible through every alias.  The heap is the list of live
product objects, a reference is an index into it. -/
abbrev Heap := List BestBuy.Product

/-- Placeholder used to make heap lookup total; theorems about the heap
carry the bounds that make every reference valid. -/
def defaultProduct : Product :=
  { name := "", price := 0, quantity := 0, active := true,
    promotion := none, variant := .standard }

/-- Dereference a product reference. -/
def Heap.deref (σ : Heap) (i : Nat) : Product :=
  σ.getD i defaultProduct

/-- `Store.__init__` keeps `self.products`, a list of product
references; insertion order is preserved (store.py 13-21). -/
abbrev Catalog := List Nat

/-- Python's `product in self.products` membership test (store.py 100):
element-wise `__eq__` over the catalog (identity of the reference
implies `__eq__`, since an object trivially has its own name and
price). -/
def pyIn (σ : Heap) (catalog : Catalog) (p : Product) : Bool :=
  catalog.any (fun j => Product.pyEq (Heap.deref σ j) p)

/-- `Store.add_product` (store.py 23-38): the membership test compares
NAMES only — `product.name not in [item.name for item in
self.products]` — appending when no name matches and otherwise printing
a notice and leaving the catalog unchanged.  Neither branch raises. -/
def addProduct (σ : Heap) (catalog : Catalog) (i : Nat) : Catalog :=
  if catalog.any (fun j => (Heap.deref σ j).name == (Heap.deref σ i).name) then catalog
  else catalog ++ [i]

/-- The attribute names bound on the `Product` class by products.py:
the properties `name`, `price`, `quantity`, `active`, `promotion`
(products.py 86-155), the method `buy` (157) and the dunder methods
(39-84).  No attribute named `is_active` or `show` is defined by the
class. -/
def productAttributeNames : List String :=
  ["name", "price", "quantity", "active", "promotion", "buy",
   "__init__", "__hash__", "__eq__", "__lt__", "__gt__", "__str__"]

/-- `Store.get_all_products` (store.py 65-72): the comprehension
`[product for product in self.products if product.is_active()]`
evaluates `product.is_active()` on each element in order.  Looking up
`is_active` on a product raises `AttributeError` because products.py
binds no such attribute (see `productAttributeNames`); were the
attribute present, the comprehension would keep the active products in
order. -/
def getAllProducts (σ : Heap) : Catalog → Except Err Catalog
  | [] => .ok []
  | i :: rest =>
      if "is_active" ∈ productAttributeNames then
        match getAllProducts σ rest with
        | .ok l => .ok (if (Heap.deref σ i).active then i :: l else l)
        | .error e => .error e
      else .error (.attributeError "is_active")

/-- The loop of `Store.order` (store.py 98-104) with the running total
made explicit: for each `(product, quantity)` pair, raise
`ValueError("There is no {name} in the store.")` when the product is not
a member of the catalog (by `__eq__`), otherwise call `product.buy` —
mutating the referenced object in place — and add the returned charge to
the total; the first raise propagates immediately, leaving every earlier
mutation in the heap. -/
def orderFrom (catalog : Catalog) : Heap → List (Nat × Int) → Rat → Except Err Rat × Heap
  | σ, [], total => (.ok total, σ)
  | σ, (i, q) :: rest, total =>
      let p := Heap.deref σ i
      if pyIn σ catalog p = true then
        match p.buy q with
        | (.ok c, p2) => orderFrom catalog (σ.set i p2) rest (total + c)
        | (.error e, _) => (.error e, σ)
      else (.error (.productNotInStore p.name), σ)

/-- `Store.order` (store.py 84-104): the loop started with
`total_price = 0`. -/
def order (σ : Heap) (catalog : Catalog) (shopping : List (Nat × Int)) :
    Except Err Rat × Heap :=
  orderFrom catalog σ shopping 0

/-- Whether processing the single pair `(i, q)` against heap `σ` raises,
and with which error: not a member of the catalog, or `buy` raises. -/
def stepError (σ : Heap) (catalog : Catalog) (i : Nat) (q : Int) : Option Err :=
  let p := Heap.deref σ i
  if pyIn σ catalog p = true then
    match (p.buy q).1 with
    | .ok _ => none
    | .error e => some e
  else some (.productNotInStore p.name)

/-! ## Theorems -/

/-- Helper: `Product.init` only ever returns a product whose `active`
flag is true. -/
theorem Product.init_active {name : String} {price : Rat} {q : Int} {p : Product}
    (h : Product.init name price q = Except.ok p) : p.active = true := by
  unfold Product.init at h
  split_ifs at h
  all_goals cases h
  rfl

/-- C2: for every active Standard or Limited product with stock `Q` and
every integer `k` with `0 < k ≤ Q` (and, for Limited, `k ≤ maximum`),
`buy k` succeeds returning the charge, leaves the quantity equal to
`Q - k`, and sets `active` to false iff `Q - k = 0`. -/
theorem buy_success_decrements (p : Product) (k : Int)
    (hact : p.active = true) (hk : 0 < k) (hq : k ≤ p.quantity)
    (hvar : p.variant = Variant.standard ∨ ∃ m, p.variant = Variant.limited m ∧ k ≤ m) :
    (p.buy k).1 = Except.ok (p.charge k) ∧
    (p.buy k).2.quantity = p.quantity - k ∧
    ((p.buy k).2.active = false ↔ p.quantity - k = 0) := by
  obtain ⟨n, pr, q, a, promo, v⟩ := p
  simp only at hact hq hvar ⊢
  subst hact
  have hk0 : ¬ k ≤ 0 := by omega
  rcases hvar with hv | ⟨m, hv, hkm⟩ <;> subst hv
  · simp only [Product.buy, Product.getQuantity]
    rw [if_neg (by decide : ¬ ((true : Bool) = false)), if_neg hk0,
      if_neg (by omega : ¬ q < k)]
    simp only [Product.setQuantity]
    rw [if_neg (by omega : ¬ q - k < 0)]
    by_cases hz : q - k = 0
    · rw [if_pos hz]
      simp [Product.charge, hz]
    · rw [if_neg hz]
      simp [Product.charge, hz]
  · simp only [Product.buy, Product.getQuantity]
    rw [if_neg (by decide : ¬ ((true : Bool) = false)), if_neg hk0,
      if_neg (by omega : ¬ k > m), if_neg (by omega : ¬ q < k)]
    simp only [Product.setQuantity]
    rw [if_neg (by omega : ¬ q - k < 0)]
    by_cases hz : q - k = 0
    · rw [if_pos hz]
      simp [Product.charge, hz]
    · rw [if_neg hz]
      simp [Product.charge, hz]

/-- Witness for C2 at a concrete product. -/
theorem buy_success_decrements_witness :
    (⟨"A", 10, 5, true, none, Variant.standard⟩ : Product).active = true ∧
    (0 : Int) < 2 ∧ (2 : Int) ≤ (⟨"A", 10, 5, true, none, Variant.standard⟩ : Product).quantity ∧
    ((⟨"A", 10, 5, true, none, Variant.standard⟩ : Product).buy 2).1
        = Except.ok ((⟨"A", 10, 5, true, none, Variant.standard⟩ : Product).charge 2) ∧
    ((⟨"A", 10, 5, true, none, Variant.standard⟩ : Product).buy 2).2.quantity = 5 - 2 ∧
    (((⟨"A", 10, 5, true, none, Variant.standard⟩ : Product).buy 2).2.active = false ↔
        (5 : Int) - 2 = 0) :=
  ⟨rfl, by decide, by decide,
    buy_success_decrements ⟨"A", 10, 5, true, none, Variant.standard⟩ 2 rfl
      (by decide) (by decide) (Or.inl rfl)⟩

/-- C3 counterexample: on an active Limited product with stock 1 and
maximum 2, `buy 3` requests more than the available stock yet raises the
maximum-exceeded error, not the insufficient-stock error the claim
states. -/
theorem buy_over_stock_counterexample :
    ((⟨"S", 5, 1, true, none, Variant.limited 2⟩ : Product).buy 3).1
        = Except.error (Err.maximumExceeded 2 "S") ∧
    ((⟨"S", 5, 1, true, none, Variant.limited 2⟩ : Product).buy 3).1
        ≠ Except.error (Err.insufficientStock "S") := by
  decide

/-- C3 amended: for every active Standard or Limited product and every
integer `k` strictly greater than the current stock, `buy k` raises and
the product's state (quantity and active flag) is unchanged; the error
is the insufficient-stock error, except that on a Limited product whose
maximum is also exceeded the maximum-exceeded error is raised instead. -/
theorem buy_over_stock_raises (p : Product) (k : Int)
    (hact : p.active = true) (hq0 : 0 ≤ p.quantity) (hk : p.quantity < k)
    (hvar : p.variant = Variant.standard ∨ ∃ m, p.variant = Variant.limited m) :
    (p.buy k).2 = p ∧
    ((p.buy k).1 = Except.error (Err.insufficientStock p.name) ∨
      ∃ m, p.variant = Variant.limited m ∧ m < k ∧
        (p.buy k).1 = Except.error (Err.maximumExceeded m p.name)) := by
  obtain ⟨n, pr, q, a, promo, v⟩ := p
  simp only at hact hq0 hk hvar ⊢
  subst hact
  have hk0 : ¬ k ≤ 0 := by omega
  rcases hvar with hv | ⟨m, hv⟩ <;> subst hv
  · simp only [Product.buy, Product.getQuantity]
    rw [if_neg (by decide : ¬ ((true : Bool) = false)), if_neg hk0, if_pos hk]
    exact ⟨rfl, Or.inl rfl⟩
  · simp only [Product.buy, Product.getQuantity]
    rw [if_neg (by decide : ¬ ((true : Bool) = false)), if_neg hk0]
    by_cases hm : k > m
    · rw [if_pos hm]
      exact ⟨rfl, Or.inr ⟨m, rfl, by omega, rfl⟩⟩
    · rw [if_neg hm, if_pos hk]
      exact ⟨rfl, Or.inl rfl⟩

/-- Witness for C3 (amended) at a concrete Standard product with stock 1
and request 2. -/
theorem buy_over_stock_raises_witness :
    (⟨"A", 10, 1, true, none, Variant.standard⟩ : Product).active = true ∧
    (0 : Int) ≤ (⟨"A", 10, 1, true, none, Variant.standard⟩ : Product).quantity ∧
    (⟨"A", 10, 1, true, none, Variant.standard⟩ : Product).quantity < 2 ∧
    ((⟨"A", 10, 1, true, none, Variant.standard⟩ : Product).buy 2).2
        = ⟨"A", 10, 1, true, none, Variant.standard⟩ ∧
    (((⟨"A", 10, 1, true, none, Variant.standard⟩ : Product).buy 2).1
        = Except.error (Err.insufficientStock "A") ∨
      ∃ m, (⟨"A", 10, 1, true, none, Variant.standard⟩ : Product).variant = Variant.limited m ∧
        m < 2 ∧
        ((⟨"A", 10, 1, true, none, Variant.standard⟩ : Product).buy 2).1
          = Except.error (Err.maximumExceeded m "A")) :=
  ⟨rfl, by decide, by decide,
    (buy_over_stock_raises ⟨"A", 10, 1, true, none, Variant.standard⟩ 2 rfl
      (by decide) (by decide) (Or.inl rfl)).1,
    (buy_over_stock_raises ⟨"A", 10, 1, true, none, Variant.standard⟩ 2 rfl
      (by decide) (by decide) (Or.inl rfl)).2⟩

/-- C4 counterexample: `NonStockedProduct.buy` performs no `active`
check, so on an inactive non-stocked product `buy 1` succeeds and
returns the charge instead of failing with the inactive-product
error. -/
theorem buy_inactive_counterexample :
    ((⟨"E-Book", 10, 0, false, none, Variant.nonStocked⟩ : Product).buy 1).1
        = Except.ok 10 ∧
    ((⟨"E-Book", 10, 0, false, none, Variant.nonStocked⟩ : Product).buy 1).1
        ≠ Except.error Err.productInactive :=
  ⟨by norm_num [Product.buy, Product.charge], by decide⟩

/-- C4 amended: on a product whose `active` flag is false, the product's
state is unchanged by `buy k` for every `k`; for Standard and Limited
products `buy k` fails with the inactive-product error for every `k`,
but `NonStockedProduct.buy` never checks `active`: it succeeds with the
charge for every positive `k` and fails for non-positive `k` with the
quantity error only. -/
theorem buy_inactive (p : Product) (k : Int) (hin : p.active = false) :
    (p.buy k).2 = p ∧
    ((p.variant = Variant.standard ∨ ∃ m, p.variant = Variant.limited m) →
      (p.buy k).1 = Except.error Err.productInactive) ∧
    (p.variant = Variant.nonStocked →
      (0 < k → (p.buy k).1 = Except.ok (p.charge k)) ∧
      (k ≤ 0 → (p.buy k).1 = Except.error Err.buyQuantityNotPositive)) := by
  obtain ⟨n, pr, q, a, promo, v⟩ := p
  simp only at hin ⊢
  subst hin
  cases v with
  | standard =>
      refine ⟨?_, fun _ => ?_, fun hv => by cases hv⟩ <;>
        simp [Product.buy]
  | nonStocked =>
      refine ⟨?_, fun hv => ?_, fun _ => ⟨fun hk => ?_, fun hk => ?_⟩⟩
      · simp only [Product.buy]
        by_cases hk0 : k ≤ 0
        · rw [if_pos hk0]
        · rw [if_neg hk0]
      · rcases hv with hv | ⟨m, hv⟩ <;> cases hv
      · simp only [Product.buy]
        rw [if_neg (by omega : ¬ k ≤ 0)]
      · simp only [Product.buy]
        rw [if_pos hk]
  | limited m =>
      refine ⟨?_, fun _ => ?_, fun hv => by cases hv⟩ <;>
        simp [Product.buy]

/-- Witness for C4 (amended) at a concrete inactive Standard product. -/
theorem buy_inactive_witness :
    (⟨"A", 10, 4, false, none, Variant.standard⟩ : Product).active = false ∧
    ((⟨"A", 10, 4, false, none, Variant.standard⟩ : Product).buy 1).2
        = ⟨"A", 10, 4, false, none, Variant.standard⟩ ∧
    ((⟨"A", 10, 4, false, none, Variant.standard⟩ : Product).buy 1).1
        = Except.error Err.productInactive :=
  ⟨rfl,
    (buy_inactive ⟨"A", 10, 4, false, none, Variant.standard⟩ 1 rfl).1,
    (buy_inactive ⟨"A", 10, 4, false, none, Variant.standard⟩ 1 rfl).2.1 (Or.inl rfl)⟩

/-- C9: on an active Limited product with per-order cap `maximum ≥ 0`,
`buy k` for every `k > maximum` fails with the maximum-exceeded error
regardless of the available stock — there is no hypothesis on the stock,
and the maximum check precedes the stock check — and the product's state
is unchanged. -/
theorem limited_buy_over_maximum (p : Product) (m k : Int)
    (hvar : p.variant = Variant.limited m) (hact : p.active = true)
    (hm : 0 ≤ m) (hk : m < k) :
    (p.buy k).1 = Except.error (Err.maximumExceeded m p.name) ∧ (p.buy k).2 = p := by
  obtain ⟨n, pr, q, a, promo, v⟩ := p
  simp only at hvar hact ⊢
  subst hvar
  subst hact
  simp only [Product.buy]
  rw [if_neg (by decide : ¬ ((true : Bool) = false)), if_neg (by omega : ¬ k ≤ 0),
    if_pos (by omega : k > m)]
  exact ⟨rfl, rfl⟩

/-- Witness for C9 at a Limited product with maximum 2 and ample stock
10, bought with k = 3 ≤ stock: the maximum error fires even though the
stock would suffice. -/
theorem limited_buy_over_maximum_witness :
    (⟨"S", 5, 10, true, none, Variant.limited 2⟩ : Product).variant = Variant.limited 2 ∧
    (⟨"S", 5, 10, true, none, Variant.limited 2⟩ : Product).active = true ∧
    (0 : Int) ≤ 2 ∧ (2 : Int) < 3 ∧
    ((⟨"S", 5, 10, true, none, Variant.limited 2⟩ : Product).buy 3).1
        = Except.error (Err.maximumExceeded 2 "S") ∧
    ((⟨"S", 5, 10, true, none, Variant.limited 2⟩ : Product).buy 3).2
        = ⟨"S", 5, 10, true, none, Variant.limited 2⟩ :=
  ⟨rfl, rfl, by decide, by decide,
    (limited_buy_over_maximum ⟨"S", 5, 10, true, none, Variant.limited 2⟩ 2 3 rfl rfl
      (by decide) (by decide)).1,
    (limited_buy_over_maximum ⟨"S", 5, 10, true, none, Variant.limited 2⟩ 2 3 rfl rfl
      (by decide) (by decide)).2⟩

/-- C10: every successfully constructed product of any variant —
`Product`, `NonStockedProduct` (whose quantity is always 0), or
`LimitedProduct` — has `active = true` immediately after construction,
even when its quantity is 0. -/
theorem constructed_product_active (name : String) (price : Rat) (q m : Int) (p : Product)
    (h : Product.init name price q = Except.ok p ∨
         NonStockedProduct.init name price = Except.ok p ∨
         LimitedProduct.init name price q m = Except.ok p) :
    p.active = true := by
  rcases h with h | h | h
  · exact Product.init_active h
  · unfold NonStockedProduct.init at h
    cases hb : Product.init name price 0 with
    | ok p0 =>
        rw [hb] at h
        cases h
        have ha := Product.init_active hb
        exact ha
    | error e => rw [hb] at h; cases h
  · unfold LimitedProduct.init at h
    cases hb : Product.init name price q with
    | ok p0 =>
        rw [hb] at h
        cases h
        have ha := Product.init_active hb
        exact ha
    | error e => rw [hb] at h; cases h

/-- Witness for C10: `Product("A", 1, 0)` constructs successfully with
quantity 0 and is nevertheless active — the intended `quantity = 0 ⇒
inactive` invariant does not hold at construction time. -/
theorem constructed_product_active_witness :
    Product.init "A" 1 0
        = Except.ok ⟨"A", 1, 0, true, none, Variant.standard⟩ ∧
    (⟨"A", 1, 0, true, none, Variant.standard⟩ : Product).quantity = 0 ∧
    (⟨"A", 1, 0, true, none, Variant.standard⟩ : Product).active = true :=
  ⟨by decide, rfl,
    constructed_product_active "A" 1 0 0 ⟨"A", 1, 0, true, none, Variant.standard⟩
      (Or.inl (by decide))⟩

/-- C5 counterexample: applying PercentDiscount(30) to unit price 125
with quantity 2 charges 87.5 — the same as for quantity 1 — not the
claimed 125 * (100 - 30) / 100 * 2 = 175. -/
theorem percentDiscount_total_counterexample :
    Promotion.apply (Promotion.percentDiscount "30% off!" 30) 125 2 = 175 / 2 ∧
    Promotion.apply (Promotion.percentDiscount "30% off!" 30) 125 2
      ≠ 125 * (100 - 30) / 100 * 2 := by
  constructor <;> norm_num [Promotion.apply]

/-- C5 amended: `PercentDiscount.apply_promotion` returns the discounted
unit price `price * (100 - percent) / 100`, ignoring the quantity; it
equals the claimed discounted total `price * (100 - percent) / 100 *
quantity` only in the case quantity = 1, where in particular
PercentDiscount(30) on unit price 125 charges 87.5. -/
theorem percentDiscount_charge (name : String) (percent price : Rat) (q : Int)
    (hq : 0 < q) :
    Promotion.apply (Promotion.percentDiscount name percent) price q
      = price * (100 - percent) / 100 ∧
    (q = 1 → Promotion.apply (Promotion.percentDiscount name percent) price q
      = price * (100 - percent) / 100 * q) ∧
    Promotion.apply (Promotion.percentDiscount "30% off!" 30) 125 1 = 175 / 2 := by
  refine ⟨rfl, fun h => ?_, by norm_num [Promotion.apply]⟩
  subst h
  simp [Promotion.apply]

/-- Witness for C5 (amended) at quantity 1. -/
theorem percentDiscount_charge_witness :
    (0 : Int) < 1 ∧
    Promotion.apply (Promotion.percentDiscount "30% off!" 30) 125 1
      = 125 * (100 - 30) / 100 := by
  refine ⟨by decide, ?_⟩
  have h := (percentDiscount_charge "30% off!" 30 125 1 (by decide)).1
  rw [h]

/-- C8 counterexample: constructing a PercentDiscount with an empty name
and percent 150 — outside [0, 100] — succeeds and produces a promotion
object, instead of failing with a configuration error. -/
theorem promotion_init_counterexample :
    PercentDiscount.init "" 150 = Except.ok (Promotion.percentDiscount "" 150) ∧
    Promotion.init "" = Except.ok "" := ⟨rfl, rfl⟩

/-- C8 amended: promotion construction performs no validation at all —
`Promotion.__init__` just stores the name and `PercentDiscount.__init__`
just stores the percent — so every name (including the empty string) and
every percent (including values outside [0, 100]) yield a promotion
object, and no error is ever raised at creation time. -/
theorem promotion_init_total (name : String) (percent : Rat) :
    Promotion.init name = Except.ok name ∧
    PercentDiscount.init name percent = Except.ok (Promotion.percentDiscount name percent) ∧
    SecondHalfPrice.init name = Except.ok (Promotion.secondHalfPrice name) ∧
    ThirdOneFree.init name = Except.ok (Promotion.thirdOneFree name) :=
  ⟨rfl, rfl, rfl, rfl⟩

/-- C6 counterexample: a store holding only a product named "A" priced
10; adding a product named "A" priced 20 — NOT equal to the first by
`__eq__`, which compares name and price — is nevertheless a no-op,
because `add_product` compares names only. -/
theorem addProduct_counterexample :
    addProduct
      [⟨"A", 10, 5, true, none, Variant.standard⟩,
        ⟨"A", 20, 3, true, none, Variant.standard⟩] [0] 1 = [0] ∧
    Product.pyEq (⟨"A", 10, 5, true, none, Variant.standard⟩ : Product)
      ⟨"A", 20, 3, true, none, Variant.standard⟩ = false := by
  decide

/-- C6 amended: `add_product` appends the product to the catalog iff no
catalog member has the same NAME (the price is not consulted, so product
`__eq__` is not the membership criterion); otherwise the catalog is
unchanged (a notice, not an error), and in particular adding the same
product twice is idempotent. -/
theorem addProduct_by_name (σ : Heap) (catalog : Catalog) (i : Nat) :
    (addProduct σ catalog i = catalog ++ [i] ↔
      ∀ j ∈ catalog, (Heap.deref σ j).name ≠ (Heap.deref σ i).name) ∧
    (addProduct σ catalog i = catalog ↔
      ∃ j ∈ catalog, (Heap.deref σ j).name = (Heap.deref σ i).name) ∧
    addProduct σ (addProduct σ catalog i) i = addProduct σ catalog i := by
  have hne : catalog ++ [i] ≠ catalog := by
    intro h
    have := congrArg List.length h
    simp at this
  by_cases hany : catalog.any
      (fun j => (Heap.deref σ j).name == (Heap.deref σ i).name) = true
  · obtain ⟨j, hj, hjeq⟩ := List.any_eq_true.mp hany
    refine ⟨?_, ?_, ?_⟩
    · unfold addProduct
      rw [if_pos hany]
      constructor
      · intro h
        exact absurd h.symm hne
      · intro h
        exact absurd (eq_of_beq hjeq) (h j hj)
    · unfold addProduct
      rw [if_pos hany]
      exact ⟨fun _ => ⟨j, hj, eq_of_beq hjeq⟩, fun _ => rfl⟩
    · unfold addProduct
      rw [if_pos hany, if_pos hany]
  · refine ⟨?_, ?_, ?_⟩
    · unfold addProduct
      rw [if_neg hany]
      refine ⟨fun _ j hj => ?_, fun _ => rfl⟩
      intro hcontra
      exact hany (List.any_eq_true.mpr ⟨j, hj, beq_iff_eq.mpr hcontra⟩)
    · unfold addProduct
      rw [if_neg hany]
      constructor
      · intro h
        exact absurd h hne
      · rintro ⟨j, hj, hjeq⟩
        have hj2 : catalog.any
            (fun j => (Heap.deref σ j).name == (Heap.deref σ i).name) = true :=
          List.any_eq_true.mpr ⟨j, hj, beq_iff_eq.mpr hjeq⟩
        exact absurd hj2 hany
    · unfold addProduct
      rw [if_neg hany]
      have h2 : (catalog ++ [i]).any
          (fun j => (Heap.deref σ j).name == (Heap.deref σ i).name) = true :=
        List.any_eq_true.mpr ⟨i, by simp, beq_iff_eq.mpr rfl⟩
      rw [if_pos h2]

/-- C7: on a store holding the catalog's first sample product, the
comprehension in `get_all_products` raises `AttributeError` at its first
element — products.py defines an `active` property but no `is_active`
method — instead of returning the list of active products the claim
(and store.py's own docstring and tests) describe. -/
theorem getAllProducts_attribute_error :
    getAllProducts [⟨"MacBook Air M2", 1450, 100, true, none, Variant.standard⟩] [0]
        = Except.error (Err.attributeError "is_active") ∧
    getAllProducts [⟨"MacBook Air M2", 1450, 100, true, none, Variant.standard⟩] [0]
        ≠ Except.ok [0] := by
  decide

/-- Helper: the order loop processes the batch left to right: a batch
split as `pre ++ rest` first runs `pre`, and when that prefix completes
with total `t` and heap `σ2`, continues with `rest` from exactly that
total and heap. -/
theorem orderFrom_append (catalog : Catalog) (pre : List (Nat × Int)) :
    ∀ (rest : List (Nat × Int)) (σ σ2 : Heap) (t0 t : Rat),
      orderFrom catalog σ pre t0 = (Except.ok t, σ2) →
      orderFrom catalog σ (pre ++ rest) t0 = orderFrom catalog σ2 rest t := by
  induction pre with
  | nil =>
      intro rest σ σ2 t0 t h
      simp only [orderFrom, Prod.mk.injEq, Except.ok.injEq] at h
      obtain ⟨rfl, rfl⟩ := h
      rfl
  | cons hd tl ih =>
      intro rest σ σ2 t0 t h
      obtain ⟨i, q⟩ := hd
      simp only [orderFrom, List.cons_append] at h ⊢
      by_cases hmem : pyIn σ catalog (Heap.deref σ i) = true
      · rw [if_pos hmem] at h ⊢
        rcases hbuy : (Heap.deref σ i).buy q with ⟨r, p2⟩
        rw [hbuy] at h
        cases r with
        | ok c => exact ih rest (σ.set i p2) σ2 (t0 + c) t h
        | error e => simp at h
      · rw [if_neg hmem] at h
        simp at h

/-- C1: in `Store.order`, when the batch is a prefix `pre` that
processes successfully — producing total `t` and leaving the buy side
effects of every prefix pair in the heap `σ2` — followed by a pair
`(i, q)` that raises (not in the catalog, or `buy` fails), the whole
call propagates that first error, returns no total, and leaves the heap
exactly at `σ2`: the prefix decrements stay in place (no rollback) and
the remaining pairs are not processed. -/
theorem order_first_error_no_rollback (σ σ2 : Heap) (catalog : Catalog)
    (pre rest : List (Nat × Int)) (i : Nat) (q : Int) (t : Rat) (e : Err)
    (hpre : orderFrom catalog σ pre 0 = (Except.ok t, σ2))
    (herr : stepError σ2 catalog i q = some e) :
    order σ catalog (pre ++ (i, q) :: rest) = (Except.error e, σ2) := by
  unfold order
  rw [orderFrom_append catalog pre ((i, q) :: rest) σ σ2 0 t hpre]
  simp only [stepError] at herr
  simp only [orderFrom]
  by_cases hmem : pyIn σ2 catalog (Heap.deref σ2 i) = true
  · rw [if_pos hmem] at herr ⊢
    rcases hbuy : (Heap.deref σ2 i).buy q with ⟨r, p2⟩
    rw [hbuy] at herr
    cases r with
    | ok c => simp at herr
    | error e0 =>
        simp only [Option.some.injEq] at herr
        rw [herr]
  · rw [if_neg hmem] at herr ⊢
    simp only [Option.some.injEq] at herr
    rw [herr]

/-- Witness for C1: a store over two products A (stock 5) and B (stock
1); the batch buys 2 of A and then 3 of B.  The prefix decrements A to
3; the second pair fails on insufficient stock; the order call returns
that error and A's decrement is still in the final heap. -/
theorem order_first_error_no_rollback_witness :
    orderFrom [0, 1]
        [⟨"A", 10, 5, true, none, Variant.standard⟩,
          ⟨"B", 10, 1, true, none, Variant.standard⟩] [(0, 2)] 0
      = (Except.ok 20,
          [⟨"A", 10, 3, true, none, Variant.standard⟩,
            ⟨"B", 10, 1, true, none, Variant.standard⟩]) ∧
    stepError
        [⟨"A", 10, 3, true, none, Variant.standard⟩,
          ⟨"B", 10, 1, true, none, Variant.standard⟩] [0, 1] 1 3
      = some (Err.insufficientStock "B") ∧
    order
        [⟨"A", 10, 5, true, none, Variant.standard⟩,
          ⟨"B", 10, 1, true, none, Variant.standard⟩] [0, 1] [(0, 2), (1, 3)]
      = (Except.error (Err.insufficientStock "B"),
          [⟨"A", 10, 3, true, none, Variant.standard⟩,
            ⟨"B", 10, 1, true, none, Variant.standard⟩]) :=
  ⟨by norm_num [orderFrom, pyIn, Heap.deref, Product.pyEq, Product.buy,
      Product.getQuantity, Product.setQuantity, Product.charge],
    by decide,
    order_first_error_no_rollback
      [⟨"A", 10, 5, true, none, Variant.standard⟩,
        ⟨"B", 10, 1, true, none, Variant.standard⟩]
      [⟨"A", 10, 3, true, none, Variant.standard⟩,
        ⟨"B", 10, 1, true, none, Variant.standard⟩]
      [0, 1] [(0, 2)] [] 1 3 20 (Err.insufficientStock "B")
      (by norm_num [orderFrom, pyIn, Heap.deref, Product.pyEq, Product.buy,
        Product.getQuantity, Product.setQuantity, Product.charge])
      (by decide)⟩

end BestBuy
